import Mathlib

/-!
Verification of the sidecar supervision logic in `src-tauri/src/lib.rs`
(crate `claude-ws`).

The Rust source supervises one spawned child process: it polls an HTTP
endpoint for readiness (`wait_for_server`), relays the child's output
lines to the log sinks, publishes lifecycle events (`server-ready`,
`server-crashed`, `server-error`), answers a `server_health` command, and
kills the child at most once from either of two shutdown triggers
(window-destroyed, application exit), both of which run the same
mutex-guarded take-and-kill code.

Modelling conventions:
 - the HTTP side of a probe attempt is an oracle `Nat → AttemptResult`
   giving, for each attempt index, either a status code or a
   connection-level failure (error or timeout);
 - the mutexes in `ServerState` serialize the critical sections, so the
   concurrent triggers are modelled as an arbitrary interleaving
   (a `List Action`) of atomic steps over the shared state;
 - emitted events, issued kill signals and log lines are collected in a
   trace (`List Event`), in program order, so that "happens before an
   observer can see the event" becomes ordering inside the trace;
 - `tauri::Manager::manage` runs before either async task is spawned
   (line 99 versus lines 107 and 133 of the source), so the managed
   `ServerState` is always found by `try_state` and the mutex locks are
   modelled as always succeeding (the source only ignores lock poisoning,
   which requires a panic that the modelled sections do not contain).
-/

namespace ClaudeWs

/-- Constant `SERVER_PORT` from lib.rs line 8. -/
def SERVER_PORT : Nat := 8556

/-- Constant `max_attempts` from `wait_for_server`, lib.rs line 27. -/
def maxAttempts : Nat := 300

/-- The inter-attempt sleep of `wait_for_server`, in milliseconds (lib.rs line 40). -/
def intervalMs : Nat := 300

/-- The reqwest client timeout of `wait_for_server`, in milliseconds
(`Duration::from_secs(3)`, lib.rs line 21). -/
def perAttemptTimeoutMs : Nat := 3000

/-- Outcome of one probe request: an HTTP response with a status code, or a
connection-level failure (connection error or timeout), which the source
matches with the wildcard arm. -/
inductive AttemptResult where
  | response (status : Nat)
  | failure
deriving DecidableEq

/-- Status test `resp.status().is_success()`: 2xx. -/
def isSuccessStatus (c : Nat) : Bool := decide (200 ≤ c) && decide (c < 300)

/-- Status test `resp.status().is_redirection()`: 3xx. -/
def isRedirectionStatus (c : Nat) : Bool := decide (300 ≤ c) && decide (c < 400)

/-- The guard of the `Ok(resp) if ...` arm of `wait_for_server`: the attempt
counts as success exactly when a response arrived and its status is a
success or redirection status; every other case (other statuses, errors,
timeouts) falls to the wildcard arm. -/
def attemptOk : AttemptResult → Bool
  | .response c => isSuccessStatus c || isRedirectionStatus c
  | .failure => false

/-- The error string built at lib.rs lines 45-49:
`format!("Server not ready after {}s on port {}", max_attempts * 300 / 1000, port)`. -/
def timeoutMessage (port : Nat) : String :=
  "Server not ready after " ++ toString (maxAttempts * 300 / 1000) ++ "s on port " ++ toString port

/-- Result of `wait_for_server`: `Ok(())` — tagged here with the number of
attempts used, which the source logs at lines 32-36 — or `Err(msg)`. -/
inductive ProbeResult where
  | ready (attempts : Nat)
  | timeout (msg : String)
deriving DecidableEq

/-- One run of the probe loop: its result together with resource counters —
how many HTTP requests were issued and how many 300 ms sleeps were taken. -/
structure ProbeRun where
  result : ProbeResult
  requests : Nat
  sleeps : Nat
deriving DecidableEq

/-- The `for i in 0..max_attempts` loop of `wait_for_server` (lib.rs lines
29-43): `i` is the next attempt index, `remaining` the attempts left.  A
successful attempt returns immediately (one request, no sleep); a failed
attempt sleeps `intervalMs` and retries; exhaustion returns the timeout
error. -/
def probeLoop (resp : Nat → AttemptResult) (port : Nat) : Nat → Nat → ProbeRun
  | _, 0 => ⟨.timeout (timeoutMessage port), 0, 0⟩
  | i, r + 1 =>
    if attemptOk (resp i) then
      ⟨.ready (i + 1), 1, 0⟩
    else
      let rest := probeLoop resp port (i + 1) r
      ⟨rest.result, rest.requests + 1, rest.sleeps + 1⟩

/-- Function `wait_for_server` (lib.rs lines 19-50), with the HTTP layer
abstracted into the oracle `resp`. -/
def wait_for_server (resp : Nat → AttemptResult) (port : Nat) : ProbeRun :=
  probeLoop resp port 0 maxAttempts

/-- Sum of the first `n` values of `d`, used to total per-request durations. -/
def sumTo (d : Nat → Nat) : Nat → Nat
  | 0 => 0
  | n + 1 => sumTo d n + d n

/-- Wall-clock time of a probe run, given the duration `d i` of the `i`-th
request: the requests' durations plus `intervalMs` per sleep. -/
def elapsedTime (d : Nat → Nat) (run : ProbeRun) : Nat :=
  sumTo d run.requests + run.sleeps * intervalMs

theorem sumTo_le (d : Nat → Nat) (c : Nat) (h : ∀ i, d i ≤ c) :
    ∀ n, sumTo d n ≤ n * c := by
  intro n
  induction n with
  | zero => simp [sumTo]
  | succ n ih =>
    calc sumTo d (n + 1) = sumTo d n + d n := rfl
    _ ≤ n * c + c := Nat.add_le_add ih (h n)
    _ = (n + 1) * c := by ring

/-- If attempts `i, i+1, ..., i+k-1` all fail and attempt `i+k` succeeds,
the loop started at `i` with more than `k` attempts left returns ready
after exactly `k + 1` requests and `k` sleeps. -/
theorem probeLoop_first_success (resp : Nat → AttemptResult) (port : Nat) :
    ∀ (k i r : Nat), k < r →
      (∀ m, m < k → attemptOk (resp (i + m)) = false) →
      attemptOk (resp (i + k)) = true →
      probeLoop resp port i r = ⟨.ready (i + k + 1), k + 1, k⟩ := by
  intro k
  induction k with
  | zero =>
    intro i r hr _ hk
    obtain ⟨r, rfl⟩ : ∃ s, r = s + 1 := ⟨r - 1, by omega⟩
    simp only [probeLoop]
    rw [show i + 0 = i from rfl] at hk
    rw [hk]
    simp
  | succ k ih =>
    intro i r hr hfail hk
    obtain ⟨r, rfl⟩ : ∃ s, r = s + 1 := ⟨r - 1, by omega⟩
    have h0 : attemptOk (resp i) = false := by
      have := hfail 0 (Nat.succ_pos k)
      simpa using this
    simp only [probeLoop, h0]
    have hrest : probeLoop resp port (i + 1) r = ⟨.ready (i + 1 + k + 1), k + 1, k⟩ := by
      apply ih (i + 1) r (by omega)
      · intro m hm
        have := hfail (m + 1) (by omega)
        rw [show i + (m + 1) = i + 1 + m by omega] at this
        exact this
      · rw [show i + 1 + k = i + (k + 1) by omega]
        exact hk
    rw [hrest]
    have harith : i + 1 + k + 1 = i + (k + 1) + 1 := by omega
    simp [harith]

/-- If every attempt fails, the loop exhausts all `r` remaining attempts,
issuing `r` requests and `r` sleeps, and returns the timeout error. -/
theorem probeLoop_all_fail (resp : Nat → AttemptResult) (port : Nat)
    (hfail : ∀ i, attemptOk (resp i) = false) :
    ∀ (r i : Nat), probeLoop resp port i r = ⟨.timeout (timeoutMessage port), r, r⟩ := by
  intro r
  induction r with
  | zero => intro i; rfl
  | succ r ih =>
    intro i
    simp only [probeLoop, hfail i, Bool.false_eq_true, if_false, ih (i + 1)]

/-! ### The shared state, the event trace, and the atomic steps of the tasks -/

/-- Log levels of the log sinks used by the source (`log::info!`,
`log::warn!`, `log::error!`). -/
inductive LogLevel where
  | info
  | warn
  | error
deriving DecidableEq

/-- Observable effects of the supervision code, collected in program order:
log lines, the write of the ready flag, the webview navigation, the three
lifecycle emissions, and the kill signal sent to the child process.
`setReadyTrue` marks the position of the state write inside the trace so
that ordering relative to `emitServerReady` can be stated. -/
inductive Event where
  | logMsg (lvl : LogLevel) (msg : String)
  | setReadyTrue
  | navigate (url : String)
  | emitServerReady (port : Nat)
  | emitServerError (msg : String)
  | emitServerCrashed (code : Option Int)
  | killSignal
deriving DecidableEq

/-- Struct `ServerState` (lib.rs lines 11-15).  The two `Mutex` wrappers
serialize access; the child handle is modelled by an optional process id. -/
structure SState where
  port : Nat
  ready : Bool
  child : Option Nat
deriving DecidableEq

/-- The state installed by `app.manage` at lib.rs lines 99-103: port 8556,
ready false, child present. -/
def initState : SState := { port := SERVER_PORT, ready := false, child := some 0 }

/-- The shared shutdown code run by both the window-destroyed handler
(lib.rs lines 161-170) and the `RunEvent::Exit` handler (lines 178-186):
under the `child` mutex, `take()` the handle; if one was present, log and
issue a kill whose error is ignored (`let _ = child.kill()`); otherwise do
nothing.  The two call sites differ only in the log line, passed here as
`logLine`. -/
def terminateOnce (logLine : String) (s : SState) : SState × List Event :=
  match s.child with
  | some _ => ({ s with child := none }, [.logMsg .info logLine, .killSignal])
  | none => (s, [])

/-- Events received from the child process's output channel
(`tauri_plugin_shell::process::CommandEvent`): stdout line, stderr line,
termination with an optional exit code, or anything else (wildcard arm). -/
inductive CommandEvent where
  | stdoutLine (line : String)
  | stderrLine (line : String)
  | terminated (code : Option Int)
  | otherEvent
deriving DecidableEq

/-- Whitespace predicate of Rust's `str::trim`, restricted to the ASCII
fragment (Rust uses the full Unicode White_Space property; the extra
code points play no role in these claims). -/
def rustIsWhitespace (c : Char) : Bool :=
  c == ' ' || c == '\t' || c == '\n' || c == '\r' || c == '\x0B' || c == '\x0C'

/-- Character-list version of Rust's `str::trim`: drop whitespace from the
front, then from the back. -/
def trimChars (l : List Char) : List Char :=
  ((l.dropWhile rustIsWhitespace).reverse.dropWhile rustIsWhitespace).reverse

/-- Rust's `str::trim`, which removes both leading and trailing whitespace,
as applied to both stdout and stderr lines at lib.rs lines 113 and 117. -/
def rustTrim (s : String) : String := String.mk (trimChars s.data)

/-- Rust's `Debug` rendering of `Option<i32>`, used by the
`"... code: \x7b:?\x7d"` format at lib.rs lines 120-123. -/
def debugCode : Option Int → String
  | some c => "Some(" ++ toString c ++ ")"
  | none => "None"

/-- One iteration of the output relay task (lib.rs lines 109-127): stdout
lines go to the info sink and stderr lines to the warn sink, both trimmed
and tagged `[server]`; a termination event is logged at error level and
published as `server-crashed` with the exit code; other events are
ignored.  The relay mutates no shared state — in particular it does not
clear `ServerState.child`. -/
def relayEvent : CommandEvent → List Event
  | .stdoutLine line => [.logMsg .info ("[server] " ++ rustTrim line)]
  | .stderrLine line => [.logMsg .warn ("[server] " ++ rustTrim line)]
  | .terminated code =>
      [.logMsg .error ("[server] Process terminated with code: " ++ debugCode code),
       .emitServerCrashed code]
  | .otherEvent => []

/-- The readiness task body (lib.rs lines 133-155), run once the probe
finishes.  On `Ok`: log, set the ready flag true (the state is managed and
the lock succeeds, see the module comment), navigate the webview, then
emit `server-ready`.  On `Err(e)`: log and emit `server-error` with `e`.
The `setReadyTrue` trace marker coincides with the returned state's
`ready := true` write. -/
def readinessTask (s : SState) (pr : ProbeResult) : SState × List Event :=
  match pr with
  | .ready _ =>
      ({ s with ready := true },
       [.logMsg .info ("Server is ready on port " ++ toString SERVER_PORT),
        .setReadyTrue,
        .navigate ("http://localhost:" ++ toString SERVER_PORT),
        .logMsg .info ("Navigated webview to http://localhost:" ++ toString SERVER_PORT),
        .emitServerReady SERVER_PORT])
  | .timeout msg =>
      (s, [.logMsg .error ("Server failed to start: " ++ msg),
           .emitServerError msg])

/-- The atomic critical sections that touch the shared `ServerState`, i.e.
the units whose interleaving the mutexes allow: the two shutdown triggers,
the completion of the readiness task, and one relay iteration. -/
inductive Action where
  | windowDestroyed
  | appExit
  | probeDone (pr : ProbeResult)
  | childEvent (e : CommandEvent)

/-- Effect of one atomic action on the shared state, with its trace. -/
def stepA (s : SState) : Action → SState × List Event
  | .windowDestroyed => terminateOnce "Shutting down server sidecar..." s
  | .appExit => terminateOnce "App exiting, shutting down server sidecar..." s
  | .probeDone pr => readinessTask s pr
  | .childEvent e => (s, relayEvent e)

/-- Run a whole interleaving of atomic actions, concatenating the traces. -/
def runA (s : SState) : List Action → SState × List Event
  | [] => (s, [])
  | a :: rest =>
      let (s1, evs) := stepA s a
      let (s2, evs2) := runA s1 rest
      (s2, evs ++ evs2)

/-- Single-constructor test for the kill signal. -/
def isKill : Event → Bool
  | .killSignal => true
  | _ => false

/-- Number of kill signals issued in a trace. -/
def killCount (evs : List Event) : Nat := (evs.filter isKill).length

/-- Single-constructor test for a `server-error` emission, the only channel
through which a failure could propagate out of the supervision code. -/
def isErrorEmit : Event → Bool
  | .emitServerError _ => true
  | _ => false

/-- Number of `server-error` emissions in a trace. -/
def errorEmitCount (evs : List Event) : Nat := (evs.filter isErrorEmit).length

theorem killCount_append (a b : List Event) :
    killCount (a ++ b) = killCount a + killCount b := by
  simp [killCount, List.filter_append]

theorem runA_cons (s : SState) (a : Action) (rest : List Action) :
    runA s (a :: rest)
      = ((runA (stepA s a).1 rest).1, (stepA s a).2 ++ (runA (stepA s a).1 rest).2) := rfl

/-- Token count of the child handle: 1 while present, 0 once taken. -/
def childTokens (s : SState) : Nat := if s.child.isSome then 1 else 0

/-- Every atomic action preserves the take-once budget: the kills it issues
plus the tokens left never exceed the tokens it started with. -/
theorem stepA_kill_budget (s : SState) (a : Action) :
    killCount (stepA s a).2 + childTokens (stepA s a).1 ≤ childTokens s := by
  cases a with
  | windowDestroyed =>
    cases hc : s.child <;> simp [stepA, terminateOnce, hc, childTokens, killCount, isKill]
  | appExit =>
    cases hc : s.child <;> simp [stepA, terminateOnce, hc, childTokens, killCount, isKill]
  | probeDone pr =>
    cases pr <;> simp [stepA, readinessTask, childTokens, killCount, isKill, List.filter]
  | childEvent e =>
    cases e <;> simp [stepA, relayEvent, childTokens, killCount, isKill, List.filter]

/-- No atomic action ever restores a taken handle or mints a new one. -/
theorem runA_kill_budget (acts : List Action) :
    ∀ s : SState, killCount (runA s acts).2 + childTokens (runA s acts).1 ≤ childTokens s := by
  induction acts with
  | nil => intro s; simp [runA, killCount, List.filter]
  | cons a rest ih =>
    intro s
    have hstep := stepA_kill_budget s a
    have htail := ih (stepA s a).1
    simp only [runA, killCount_append]
    omega

/-! ### The health command -/

/-- Outcome of the single HTTP request of `server_health`: a response with
some status code, or a failure of the request itself (connection error or
timeout surfaced by `send().await`). -/
inductive HttpOutcome where
  | response (status : Nat)
  | failure (err : String)
deriving DecidableEq

/-- Command `server_health` (lib.rs lines 53-69), with the HTTP layer
abstracted into the request's outcome: a request failure is mapped to
`Err("Health check error: ...")`; any response — whatever its status —
is formatted into the ok record with `SERVER_PORT` and the status code. -/
def server_health : HttpOutcome → Except String String
  | .failure e => .error ("Health check error: " ++ e)
  | .response c =>
      .ok ("\x7b\"status\":\"ok\",\"port\":" ++ toString SERVER_PORT
            ++ ",\"statusCode\":" ++ toString c ++ "\x7d")

/-! ### Helper facts about trimming and substrings -/

/-- Head of a `dropWhile` never satisfies the dropped predicate. -/
theorem head?_dropWhile_false (p : Char → Bool) :
    ∀ (l : List Char) (c : Char), (l.dropWhile p).head? = some c → p c = false := by
  intro l
  induction l with
  | nil => intro c h; simp [List.dropWhile] at h
  | cons a as ih =>
    intro c h
    by_cases hp : p a
    · rw [List.dropWhile_cons_of_pos hp] at h
      exact ih c h
    · rw [List.dropWhile_cons_of_neg hp] at h
      simp only [List.head?_cons, Option.some_inj] at h
      subst h
      exact Bool.of_not_eq_true hp

/-- The trimmed list sits inside the original between two all-whitespace
stretches, and itself starts and ends with non-whitespace. -/
theorem trimChars_spec (l : List Char) :
    (∃ lead trail, l = lead ++ trimChars l ++ trail
        ∧ lead.all rustIsWhitespace ∧ trail.all rustIsWhitespace)
    ∧ (∀ c, (trimChars l).head? = some c → rustIsWhitespace c = false)
    ∧ (∀ c, (trimChars l).getLast? = some c → rustIsWhitespace c = false) := by
  set p := rustIsWhitespace with hp
  set m := l.dropWhile p with hm
  have hsplit : m = trimChars l ++ (m.reverse.takeWhile p).reverse := by
    have h3 := congrArg List.reverse (List.takeWhile_append_dropWhile p m.reverse)
    rw [List.reverse_append, List.reverse_reverse] at h3
    exact h3.symm
  refine ⟨?_, ?_, ?_⟩
  · refine ⟨l.takeWhile p, (m.reverse.takeWhile p).reverse, ?_, ?_, ?_⟩
    · conv_lhs => rw [← List.takeWhile_append_dropWhile p l, ← hm, hsplit]
      rw [List.append_assoc]
    · simp only [List.all_eq_true]
      intro c hc
      exact List.mem_takeWhile_imp hc
    · simp only [List.all_eq_true]
      intro c hc
      rw [List.mem_reverse] at hc
      exact List.mem_takeWhile_imp hc
  · intro c h
    have hlast : (m.reverse.dropWhile p).getLast? = some c := by
      rw [← List.head?_reverse]
      exact h
    have hne : m.reverse.dropWhile p ≠ [] := by
      intro hnil
      rw [hnil] at hlast
      simp at hlast
    obtain ⟨t, ht⟩ := List.dropWhile_suffix (l := m.reverse) p
    have hml : m.reverse.getLast? = some c := by
      rw [← ht, List.getLast?_append_of_ne_nil t hne]
      exact hlast
    rw [List.getLast?_reverse] at hml
    exact head?_dropWhile_false p l c hml
  · intro c h
    rw [show trimChars l = (m.reverse.dropWhile p).reverse from rfl,
      List.getLast?_reverse] at h
    exact head?_dropWhile_false p m.reverse c h

/-- Boolean test that `needle` starts the list `hay`. -/
def startsWithL : List Char → List Char → Bool
  | [], _ => true
  | _ :: _, [] => false
  | a :: as, b :: bs => a == b && startsWithL as bs

/-- Boolean test that `needle` occurs contiguously somewhere in `hay`. -/
def hasSubList (needle : List Char) : List Char → Bool
  | [] => startsWithL needle []
  | b :: bs => startsWithL needle (b :: bs) || hasSubList needle bs

/-- Substring occurrence test on strings, used to state what the timeout
error message does and does not mention. -/
def containsStr (needle s : String) : Bool := hasSubList needle.data s.data

/-- Definition taken from the spec's words, for comparison with the code's
`rustTrim`: a line "trimmed of trailing whitespace (the rest of the line
unchanged)" keeps its leading whitespace and loses only the trailing run. -/
def specTrimTrailingOnly (s : String) : String :=
  String.mk (s.data.reverse.dropWhile rustIsWhitespace).reverse

/-! ### Claim theorems -/

/-- Claim C3: for every attempt index `k` with `1 ≤ k ≤ maxAttempts`, if
the first `k - 1` probe requests fail (error, timeout, or non-2xx/3xx
status) and the `k`-th returns a success or redirection status, then
`wait_for_server` returns ready right after attempt `k`: exactly `k`
requests are issued and exactly `k - 1` inter-attempt waits are taken,
none for attempts `k+1..maxAttempts`. -/
theorem C3_ready_on_first_success (resp : Nat → AttemptResult) (port k : Nat)
    (hk1 : 1 ≤ k) (hk2 : k ≤ maxAttempts)
    (hfail : ∀ i, i < k - 1 → attemptOk (resp i) = false)
    (hsucc : attemptOk (resp (k - 1)) = true) :
    wait_for_server resp port = ⟨.ready k, k, k - 1⟩ := by
  have hmain := probeLoop_first_success resp port (k - 1) 0 maxAttempts (by omega)
    (fun m hm => by
      rw [Nat.zero_add]
      exact hfail m hm)
    (by
      rw [Nat.zero_add]
      exact hsucc)
  have h1 : 0 + (k - 1) + 1 = k := by omega
  have h2 : k - 1 + 1 = k := by omega
  rw [wait_for_server, hmain, h1, h2]

/-- Witness for C3: a target that answers 200 at once makes the probe
return ready after one request and zero sleeps. -/
theorem C3_ready_on_first_success_witness :
    wait_for_server (fun _ => .response 200) SERVER_PORT = ⟨.ready 1, 1, 0⟩ :=
  C3_ready_on_first_success (fun _ => .response 200) SERVER_PORT 1
    (by decide) (by decide) (fun i h => absurd h (Nat.not_lt_zero i)) (by decide)

/-- Claim C4: if the target never answers with a success or redirection
status, `wait_for_server` performs exactly `maxAttempts = 300` requests
with one `intervalMs = 300` ms wait after each failed attempt and returns
the timeout error; with each request bounded by the client timeout
`perAttemptTimeoutMs`, the total wall-clock time is at most
`maxAttempts * (intervalMs + perAttemptTimeoutMs)`. -/
theorem C4_timeout_after_full_budget (resp : Nat → AttemptResult) (port : Nat)
    (hfail : ∀ i, attemptOk (resp i) = false) :
    wait_for_server resp port = ⟨.timeout (timeoutMessage port), maxAttempts, maxAttempts⟩
    ∧ ∀ d : Nat → Nat, (∀ i, d i ≤ perAttemptTimeoutMs) →
        elapsedTime d (wait_for_server resp port)
          ≤ maxAttempts * (intervalMs + perAttemptTimeoutMs) := by
  have hrun := probeLoop_all_fail resp port hfail maxAttempts 0
  refine ⟨hrun, ?_⟩
  intro d hd
  rw [wait_for_server, hrun]
  show sumTo d 300 + 300 * 300 ≤ 300 * (300 + 3000)
  have hsum : sumTo d 300 ≤ 300 * 3000 := sumTo_le d 3000 hd 300
  omega

/-- Witness for C4: the never-ready oracle runs the full budget; with every
request instantaneous the elapsed time is within the bound. -/
theorem C4_timeout_after_full_budget_witness :
    wait_for_server (fun _ => .failure) SERVER_PORT
        = ⟨.timeout (timeoutMessage SERVER_PORT), maxAttempts, maxAttempts⟩
    ∧ elapsedTime (fun _ => 0) (wait_for_server (fun _ => .failure) SERVER_PORT)
        ≤ maxAttempts * (intervalMs + perAttemptTimeoutMs) :=
  ⟨(C4_timeout_after_full_budget (fun _ => .failure) SERVER_PORT (fun _ => rfl)).1,
   (C4_timeout_after_full_budget (fun _ => .failure) SERVER_PORT (fun _ => rfl)).2
      (fun _ => 0) (fun _ => Nat.zero_le perAttemptTimeoutMs)⟩

/-- Claim C5 counterexample: on the concrete configuration the exhausted
probe returns the message "Server not ready after 90s on port 8556",
which does not contain the attempt count 300 anywhere, contradicting the
claim that the error carries the attempt count and that the message
includes 300. -/
theorem C5_counterexample :
    (wait_for_server (fun _ => .failure) SERVER_PORT).result
        = .timeout (timeoutMessage SERVER_PORT)
    ∧ timeoutMessage SERVER_PORT = "Server not ready after 90s on port 8556"
    ∧ containsStr "300" (timeoutMessage SERVER_PORT) = false := by
  refine ⟨?_, by decide, by decide⟩
  rw [wait_for_server,
    probeLoop_all_fail (fun _ => .failure) SERVER_PORT (fun _ => rfl) maxAttempts 0]

/-- Claim C5 (amended): when all probe attempts are exhausted without
success, the timeout error describes the target (its port) and the total
elapsed budget in seconds; in the concrete configuration the message
includes port 8556 and the 90 second budget, but not the attempt count
300. -/
theorem C5_amended_timeout_message (resp : Nat → AttemptResult)
    (hfail : ∀ i, attemptOk (resp i) = false) :
    (wait_for_server resp SERVER_PORT).result = .timeout (timeoutMessage SERVER_PORT)
    ∧ timeoutMessage SERVER_PORT = "Server not ready after 90s on port 8556"
    ∧ containsStr "8556" (timeoutMessage SERVER_PORT) = true
    ∧ containsStr "90" (timeoutMessage SERVER_PORT) = true
    ∧ containsStr "300" (timeoutMessage SERVER_PORT) = false := by
  refine ⟨?_, by decide, by decide, by decide, by decide⟩
  rw [wait_for_server, probeLoop_all_fail resp SERVER_PORT hfail maxAttempts 0]

/-- Witness for the amended C5 at the never-ready oracle. -/
theorem C5_amended_timeout_message_witness :
    (wait_for_server (fun _ => AttemptResult.failure) SERVER_PORT).result
        = .timeout (timeoutMessage SERVER_PORT)
    ∧ timeoutMessage SERVER_PORT = "Server not ready after 90s on port 8556"
    ∧ containsStr "8556" (timeoutMessage SERVER_PORT) = true
    ∧ containsStr "90" (timeoutMessage SERVER_PORT) = true
    ∧ containsStr "300" (timeoutMessage SERVER_PORT) = false :=
  C5_amended_timeout_message (fun _ => .failure) (fun _ => rfl)

/-- Claim C1: over every interleaving of atomic actions — in particular
the window-destroyed and application-exit triggers in any order — at most
one action obtains the child handle and issues a kill signal; starting
from a state whose handle is already absent, every invocation observes it
absent and performs no kill, and the handle stays absent forever: the
present-to-absent transition is irreversible. -/
theorem C1_terminate_once (acts : List Action) :
    killCount (runA initState acts).2 ≤ 1
    ∧ ∀ s : SState, s.child = none →
        (runA s acts).1.child = none ∧ killCount (runA s acts).2 = 0 := by
  constructor
  · have hbud := runA_kill_budget acts initState
    have hinit : childTokens initState = 1 := rfl
    omega
  · intro s hs
    have hbud := runA_kill_budget acts s
    have hzero : childTokens s = 0 := by simp [childTokens, hs]
    rw [hzero] at hbud
    have hkill : killCount (runA s acts).2 = 0 := by omega
    have htok : childTokens (runA s acts).1 = 0 := by omega
    refine ⟨?_, hkill⟩
    cases hco : (runA s acts).1.child with
    | none => rfl
    | some pid => simp [childTokens, hco] at htok

/-- Witness for C1: both triggers fired in sequence kill at most once, and
from a handle-free state they kill zero times and leave the handle
absent. -/
theorem C1_terminate_once_witness :
    killCount (runA initState [Action.windowDestroyed, Action.appExit]).2 ≤ 1
    ∧ ((runA ⟨8556, false, none⟩ [Action.windowDestroyed, Action.appExit]).1.child = none
        ∧ killCount (runA ⟨8556, false, none⟩ [Action.windowDestroyed, Action.appExit]).2 = 0) :=
  ⟨(C1_terminate_once [Action.windowDestroyed, Action.appExit]).1,
   (C1_terminate_once [Action.windowDestroyed, Action.appExit]).2 ⟨8556, false, none⟩ rfl⟩

/-- Claim C2: whenever the readiness task's trace carries the
`server-ready` emission, the returned state has `ready = true` and the
write of the ready flag occurs strictly earlier in the trace than the
emission, so no subscriber can observe `server-ready` while the flag is
still false. -/
theorem C2_ready_flag_before_emit (s : SState) (pr : ProbeResult) (j : Nat)
    (h : (readinessTask s pr).2.get? j = some (Event.emitServerReady SERVER_PORT)) :
    (readinessTask s pr).1.ready = true
    ∧ ∃ i, i < j ∧ (readinessTask s pr).2.get? i = some Event.setReadyTrue := by
  cases pr with
  | ready n =>
    refine ⟨rfl, ?_⟩
    rcases j with _ | _ | _ | _ | _ | j
    · simp [readinessTask, List.get?] at h
    · simp [readinessTask, List.get?] at h
    · simp [readinessTask, List.get?] at h
    · simp [readinessTask, List.get?] at h
    · exact ⟨1, by omega, rfl⟩
    · simp [readinessTask, List.get?] at h
  | timeout msg =>
    exfalso
    rcases j with _ | _ | j
    · simp [readinessTask, List.get?] at h
    · simp [readinessTask, List.get?] at h
    · simp [readinessTask, List.get?] at h

/-- Witness for C2: in the success trace the emission sits at index 4 and
the flag write at index 1. -/
theorem C2_ready_flag_before_emit_witness :
    (readinessTask initState (.ready 1)).1.ready = true
    ∧ ∃ i, i < 4 ∧ (readinessTask initState (.ready 1)).2.get? i = some Event.setReadyTrue :=
  C2_ready_flag_before_emit initState (.ready 1) 4 rfl

/-- Claim C10: the ready flag is monotonic — it starts false, every atomic
action either leaves it unchanged or sets it to true, and once true it
stays true over every further interleaving. -/
theorem C10_ready_monotonic :
    initState.ready = false
    ∧ (∀ (s : SState) (a : Action),
        (stepA s a).1.ready = s.ready ∨ (stepA s a).1.ready = true)
    ∧ ∀ (s : SState) (acts : List Action),
        s.ready = true → (runA s acts).1.ready = true := by
  have hstep : ∀ (s : SState) (a : Action),
      (stepA s a).1.ready = s.ready ∨ (stepA s a).1.ready = true := by
    intro s a
    cases a with
    | windowDestroyed =>
      cases hc : s.child <;> left <;> simp [stepA, terminateOnce, hc]
    | appExit =>
      cases hc : s.child <;> left <;> simp [stepA, terminateOnce, hc]
    | probeDone pr =>
      cases pr with
      | ready n => right; rfl
      | timeout m => left; rfl
    | childEvent e => left; rfl
  refine ⟨rfl, hstep, ?_⟩
  intro s acts
  induction acts generalizing s with
  | nil => intro h; exact h
  | cons a rest ih =>
    intro h
    have hpres : (stepA s a).1.ready = true := by
      rcases hstep s a with heq | htrue
      · rw [heq]; exact h
      · exact htrue
    rw [runA_cons]
    exact ih (stepA s a).1 hpres

/-- Witness for C10: from a state with the flag already true, the
application-exit trigger leaves it true. -/
theorem C10_ready_monotonic_witness :
    initState.ready = false
    ∧ ((stepA initState Action.appExit).1.ready = initState.ready
        ∨ (stepA initState Action.appExit).1.ready = true)
    ∧ (runA ⟨8556, true, some 0⟩ [Action.appExit]).1.ready = true :=
  ⟨C10_ready_monotonic.1,
   C10_ready_monotonic.2.1 initState Action.appExit,
   C10_ready_monotonic.2.2 ⟨8556, true, some 0⟩ [Action.appExit] rfl⟩

/-- Claim C6 counterexample: with the child crashed (its termination event
relayed at, say, attempt 5) and the target dead from the start, the probe
still issues all 300 requests instead of abandoning the remaining ones,
and a subsequent termination trigger is not a no-op: it emits a kill
signal. -/
theorem C6_counterexample :
    (wait_for_server (fun _ => AttemptResult.failure) SERVER_PORT).requests = 300
    ∧ ¬ (wait_for_server (fun _ => AttemptResult.failure) SERVER_PORT).requests ≤ 5
    ∧ killCount (stepA (stepA initState (.childEvent (.terminated (some 1)))).1
        Action.appExit).2 = 1 := by
  have hrun := probeLoop_all_fail (fun _ => AttemptResult.failure) SERVER_PORT
    (fun _ => rfl) maxAttempts 0
  refine ⟨?_, ?_, rfl⟩
  · rw [wait_for_server, hrun]
    rfl
  · rw [wait_for_server, hrun]
    decide

/-- Claim C6 (amended): when the child terminates mid-probe, the crashed
event carrying the exit code is published by the relay, but the probe is
not cancelled — against the dead target it continues through all
remaining attempts and ends in the timeout error — and a subsequent
termination trigger is not a no-op: it still finds the handle present and
issues one kill signal (whose failure the code ignores). -/
theorem C6_amended_crash_mid_probe (c : Option Int) (resp : Nat → AttemptResult)
    (hfail : ∀ i, attemptOk (resp i) = false) :
    Event.emitServerCrashed c ∈ relayEvent (.terminated c)
    ∧ (wait_for_server resp SERVER_PORT).requests = maxAttempts
    ∧ (wait_for_server resp SERVER_PORT).result = .timeout (timeoutMessage SERVER_PORT)
    ∧ ∀ s : SState, s.child.isSome = true →
        (stepA s (.childEvent (.terminated c))).1 = s
        ∧ killCount (stepA s Action.windowDestroyed).2 = 1 := by
  have hrun := probeLoop_all_fail resp SERVER_PORT hfail maxAttempts 0
  refine ⟨?_, ?_, ?_, ?_⟩
  · simp [relayEvent]
  · rw [wait_for_server, hrun]
  · rw [wait_for_server, hrun]
  · intro s h
    obtain ⟨pid, hp⟩ := Option.isSome_iff_exists.mp h
    exact ⟨rfl, by simp [stepA, terminateOnce, hp, killCount, isKill, List.filter]⟩

/-- Witness for the amended C6 at exit code 1, the dead-target oracle and
the freshly spawned state. -/
theorem C6_amended_crash_mid_probe_witness :
    Event.emitServerCrashed (some 1) ∈ relayEvent (.terminated (some 1))
    ∧ (wait_for_server (fun _ => AttemptResult.failure) SERVER_PORT).requests = maxAttempts
    ∧ ((stepA initState (.childEvent (.terminated (some 1)))).1 = initState
        ∧ killCount (stepA initState Action.windowDestroyed).2 = 1) :=
  ⟨(C6_amended_crash_mid_probe (some 1) (fun _ => AttemptResult.failure) (fun _ => rfl)).1,
   (C6_amended_crash_mid_probe (some 1) (fun _ => AttemptResult.failure) (fun _ => rfl)).2.1,
   (C6_amended_crash_mid_probe (some 1) (fun _ => AttemptResult.failure)
      (fun _ => rfl)).2.2.2 initState rfl⟩

/-- Claim C7 counterexample: the relay of the child's natural termination
event leaves the stored handle present, so the next run of the
termination path issues a kill signal — it is not kill-free. -/
theorem C7_counterexample :
    (stepA initState (.childEvent (.terminated (some 0)))).1.child = some 0
    ∧ killCount (stepA (stepA initState (.childEvent (.terminated (some 0)))).1
        Action.windowDestroyed).2 = 1 :=
  ⟨rfl, rfl⟩

/-- Claim C7 (amended): the termination path never propagates a failure —
it emits no error event and is total, because the kill result is
discarded — and with the handle absent it is a silent no-op; but after a
natural exit the handle is still present (the relay does not clear it),
so the path takes the handle and does issue one kill signal to the
already-exited process. -/
theorem C7_amended_terminate_after_exit (s : SState) (c : Option Int) (msg : String) :
    (stepA s (.childEvent (.terminated c))).1 = s
    ∧ (s.child = none → terminateOnce msg s = (s, []))
    ∧ (s.child.isSome = true →
        (terminateOnce msg s).1.child = none
        ∧ killCount (terminateOnce msg s).2 = 1)
    ∧ errorEmitCount (terminateOnce msg s).2 = 0 := by
  refine ⟨rfl, ?_, ?_, ?_⟩
  · intro h
    simp [terminateOnce, h]
  · intro h
    obtain ⟨pid, hp⟩ := Option.isSome_iff_exists.mp h
    constructor
    · simp [terminateOnce, hp]
    · simp [terminateOnce, hp, killCount, isKill, List.filter]
  · cases hp : s.child <;>
      simp [terminateOnce, hp, errorEmitCount, isErrorEmit, List.filter]

/-- Witness for the amended C7: the handle-free state gives a silent
no-op; the freshly spawned state gives exactly one kill and no error
emission. -/
theorem C7_amended_terminate_after_exit_witness :
    (stepA ⟨8556, false, none⟩ (.childEvent (.terminated (some 0)))).1 = ⟨8556, false, none⟩
    ∧ terminateOnce "Shutting down server sidecar..." ⟨8556, false, none⟩
        = (⟨8556, false, none⟩, [])
    ∧ ((terminateOnce "Shutting down server sidecar..." initState).1.child = none
        ∧ killCount (terminateOnce "Shutting down server sidecar..." initState).2 = 1)
    ∧ errorEmitCount (terminateOnce "Shutting down server sidecar..." initState).2 = 0 :=
  ⟨(C7_amended_terminate_after_exit ⟨8556, false, none⟩ (some 0)
      "Shutting down server sidecar...").1,
   (C7_amended_terminate_after_exit ⟨8556, false, none⟩ (some 0)
      "Shutting down server sidecar...").2.1 rfl,
   (C7_amended_terminate_after_exit initState (some 0)
      "Shutting down server sidecar...").2.2.1 rfl,
   (C7_amended_terminate_after_exit initState (some 0)
      "Shutting down server sidecar...").2.2.2⟩

/-- Claim C8 counterexample: for the stdout line " hi" the relay forwards
"[server] hi" — the leading space is removed too — which differs from
forwarding the line trimmed of trailing whitespace only, as the claim
states. -/
theorem C8_counterexample :
    relayEvent (.stdoutLine " hi") = [.logMsg .info "[server] hi"]
    ∧ specTrimTrailingOnly " hi" = " hi"
    ∧ relayEvent (.stdoutLine " hi")
        ≠ [.logMsg .info ("[server] " ++ specTrimTrailingOnly " hi")] := by
  exact ⟨by decide, by decide, by decide⟩

/-- Claim C8 (amended): every stdout line goes to the info-level sink and
every stderr line to the warning-level sink, each tagged with "[server]"
and trimmed of both leading and trailing whitespace: the original line
splits as whitespace ++ forwarded text ++ whitespace, and the forwarded
text neither starts nor ends with a whitespace character. -/
theorem C8_amended_relay_trims_both_ends (line : String) :
    relayEvent (.stdoutLine line) = [.logMsg .info ("[server] " ++ rustTrim line)]
    ∧ relayEvent (.stderrLine line) = [.logMsg .warn ("[server] " ++ rustTrim line)]
    ∧ (∃ lead trail, line.data = lead ++ (rustTrim line).data ++ trail
        ∧ lead.all rustIsWhitespace ∧ trail.all rustIsWhitespace)
    ∧ (∀ c, (rustTrim line).data.head? = some c → rustIsWhitespace c = false)
    ∧ (∀ c, (rustTrim line).data.getLast? = some c → rustIsWhitespace c = false) := by
  obtain ⟨hdecomp, hhead, hlast⟩ := trimChars_spec line.data
  exact ⟨rfl, rfl, hdecomp, hhead, hlast⟩

/-- Witness for the amended C8 on the line " hi " whose trim is "hi". -/
theorem C8_amended_relay_trims_both_ends_witness :
    relayEvent (.stdoutLine " hi ") = [.logMsg .info ("[server] " ++ rustTrim " hi ")]
    ∧ relayEvent (.stderrLine " hi ") = [.logMsg .warn ("[server] " ++ rustTrim " hi ")]
    ∧ rustIsWhitespace 'h' = false
    ∧ rustIsWhitespace 'i' = false :=
  ⟨(C8_amended_relay_trims_both_ends " hi ").1,
   (C8_amended_relay_trims_both_ends " hi ").2.1,
   (C8_amended_relay_trims_both_ends " hi ").2.2.2.1 'h' (by decide),
   (C8_amended_relay_trims_both_ends " hi ").2.2.2.2 'i' (by decide)⟩

/-- Claim C9: `server_health` returns the ok record — with status "ok",
port 8556 and the received status code — for every HTTP response,
whatever its status code (including 4xx and 5xx), and returns an error
describing the failed request exactly when the request itself fails. -/
theorem C9_health_ok_for_any_status (c : Nat) (e : String) :
    server_health (.response c)
      = .ok ("\x7b\"status\":\"ok\",\"port\":8556,\"statusCode\":" ++ toString c ++ "\x7d")
    ∧ server_health (.failure e) = .error ("Health check error: " ++ e) :=
  ⟨rfl, rfl⟩

end ClaudeWs
